import Mathlib

/-!
# certbun: fetch a certificate bundle and install it

A shallow embedding of `certbun.go`.  The program is a straight line of
library calls, so the embedding threads an explicit `World` (process
environment, filesystem, trace of effectful calls) through `run`, `parseConfig`
and `getSsl`.  The library operations the program calls are modelled after the
documented behaviour of the Go standard library (`os`, `path/filepath`, `fmt`)
on a Unix system; the outcome of the HTTP call, the dotenv reader and the JSON
string codec are fields of a `Platform` record, so every theorem holds for each
of their possible behaviours.  The trace records library calls; what
`http.Client` puts on the wire for one call of `client.Post` (nothing for a
URL it rejects, one request more for each redirect it follows) is modelled by
`clientDo` over a `Network`.
-/

set_option autoImplicit false

namespace Certbun

/-! ## Data model (`certbun.go`, lines 16-35) -/

/-- The constant `endpoint`. -/
def endpoint : String := "https://api.porkbun.com/api/json/v3/ssl/retrieve"

/-- The struct `Config`. -/
structure Config where
  apiKey : String
  secretApiKey : String
  domain : String
  installDir : String
  deriving DecidableEq, Repr

/-- The struct `SslReqBody`; the JSON member names are `apikey` and `secretapikey`. -/
structure SslReqBody where
  ApiKey : String
  SecretApiKey : String
  deriving DecidableEq, Repr

/-- The struct `SslResBody`; the JSON member names are `status`,
`certificatechain`, `privatekey` and `publickey`. -/
structure SslResBody where
  Status : String
  CertChain : String
  PrivateKey : String
  PublicKey : String
  deriving DecidableEq, Repr

/-! ## `path/filepath` on Unix -/

/-- The pieces of a path between its `/` separators. -/
def splitSlash : List Char → List (List Char)
  | [] => [[]]
  | c :: cs =>
    if c = '/' then [] :: splitSlash cs
    else
      match splitSlash cs with
      | [] => [[c]]
      | h :: t => (c :: h) :: t

/-- One step of `filepath.Clean`: `stack` holds the elements kept so far, the
last one first.  Empty elements and `.` are dropped, `..` removes the element
before it (a leading `..` of a rooted path is dropped, of a relative path is
kept). -/
def cleanStep (rooted : Bool) (stack : List (List Char)) (c : List Char) : List (List Char) :=
  if c = [] ∨ c = ['.'] then stack
  else if c = ['.', '.'] then
    match stack with
    | [] => if rooted then [] else [c]
    | top :: rest => if top = ['.', '.'] then c :: stack else rest
  else c :: stack

/-- The elements of a path joined by `/`. -/
def joinSlash : List (List Char) → List Char
  | [] => []
  | [c] => c
  | c :: d :: t => c ++ '/' :: joinSlash (d :: t)

/-- The elements `filepath.Clean` keeps, the last one first. -/
def cleanStack (p : List Char) : List (List Char) :=
  (splitSlash p).foldl (cleanStep (p.head? = some '/')) []

/-- The function `filepath.Clean` on a list of characters. -/
def cleanChars (p : List Char) : List Char :=
  if p.head? = some '/' then '/' :: joinSlash (cleanStack p).reverse
  else if cleanStack p = [] then ['.']
  else joinSlash (cleanStack p).reverse

/-- The function `filepath.Clean`: the shortest path naming the same place by
lexical processing only. -/
def filepathClean (p : String) : String := String.mk (cleanChars p.data)

/-- The function `filepath.Join` for two elements: empty elements are ignored,
the rest is joined by `/` from the first non-empty element on and cleaned; the
result is empty when both elements are. -/
def filepathJoin (a b : String) : String :=
  if a ≠ "" then filepathClean (a ++ "/" ++ b)
  else if b ≠ "" then filepathClean b
  else ""

/-- The characters before the last `/` of a path, when it has one. -/
def beforeLastSlash : List Char → Option (List Char)
  | [] => none
  | c :: cs =>
    match beforeLastSlash cs with
    | some r => some (c :: r)
    | none => if c = '/' then some [] else none

/-- The directory that holds the entry named by a cleaned path: `.` for a
single element, `/` for an element directly under the root. -/
def parentDir (p : String) : String :=
  match beforeLastSlash p.data with
  | none => "."
  | some [] => "/"
  | some r => String.mk r

/-! ## The filesystem and `os.WriteFile` -/

/-- An entry of the filesystem: a regular file with its content and permission
bits, or a directory with its permission bits. -/
inductive Node where
  | file (content : String) (perm : Nat)
  | dir (perm : Nat)
  deriving DecidableEq, Repr

/-- The filesystem as the process sees it: the entries by cleaned path, and the
file mode creation mask of the process.  The process is unprivileged and owns
every entry, so access is decided by the owner bits. -/
structure FS where
  entries : List (String × Node)
  umask : Nat
  deriving DecidableEq, Repr

/-- The entry at a path, if there is one. -/
def lookupEntry (path : String) : List (String × Node) → Option Node
  | [] => none
  | (p, n) :: rest => if p = path then some n else lookupEntry path rest

/-- Put an entry at a path, replacing the one that is there. -/
def setEntry (path : String) (n : Node) : List (String × Node) → List (String × Node)
  | [] => [(path, n)]
  | (p, m) :: rest => if p = path then (p, n) :: rest else (p, m) :: setEntry path n rest

/-- The entry at a path. -/
def FS.lookup (fs : FS) (path : String) : Option Node := lookupEntry path fs.entries

/-- The owner may write. -/
def ownerWrite (perm : Nat) : Bool := perm &&& 0o200 != 0

/-- The owner may search (a directory). -/
def ownerSearch (perm : Nat) : Bool := perm &&& 0o100 != 0

/-- The permission bits a new file gets: the requested bits less those of the
file mode creation mask. -/
def applyUmask (perm umask : Nat) : Nat := perm ^^^ (perm &&& umask)

/-- The function `os.WriteFile` on Unix (open with `O_WRONLY|O_CREATE|O_TRUNC`,
write, close): "WriteFile writes data to the named file, creating it if
necessary.  If the file does not exist, WriteFile creates it with permissions
perm (before umask); otherwise WriteFile truncates it before writing, without
changing permissions."  It fails when the directory of the file is missing,
is not a directory or may not be searched, when the path names a directory,
when an existing file may not be written by its owner, and when a new file
would have to be created in a directory that may not be written. -/
def FS.writeFile (fs : FS) (path data : String) (perm : Nat) : Except String FS :=
  match fs.lookup (parentDir path) with
  | none => .error ("open " ++ path ++ ": no such file or directory")
  | some (.file _ _) => .error ("open " ++ path ++ ": not a directory")
  | some (.dir dperm) =>
    if !ownerSearch dperm then .error ("open " ++ path ++ ": permission denied")
    else
      match fs.lookup path with
      | some (.dir _) => .error ("open " ++ path ++ ": is a directory")
      | some (.file _ fperm) =>
        if ownerWrite fperm then
          .ok { fs with entries := setEntry path (.file data fperm) fs.entries }
        else .error ("open " ++ path ++ ": permission denied")
      | none =>
        if ownerWrite dperm then
          .ok { fs with entries := setEntry path (.file data (applyUmask perm fs.umask)) fs.entries }
        else .error ("open " ++ path ++ ": permission denied")

/-! ## The network, the dotenv file and the JSON codec -/

/-- A request: the arguments of a call `client.Post(uri, contentType, body)`,
and what the client hands to its transport. -/
structure Request where
  method : String
  url : String
  contentType : String
  body : String
  deriving DecidableEq, Repr

/-- The outcome of `io.ReadAll(res.Body)`: the whole body, or the bytes read
before the read failed together with the read error. -/
inductive BodyRead where
  | complete (data : String)
  | failed (data : String) (err : String)
  deriving DecidableEq, Repr

/-- The part of `http.Response` the program looks at. -/
structure Response where
  statusCode : Int
  body : BodyRead
  deriving DecidableEq, Repr

/-- The collaborators outside the program whose behaviour is left open: what
the dotenv reader finds in a file, what a call of `client.Post` returns (the
error of the client, be it a rejected URL, a transport error, a timeout of the
10 second client or too many redirects, or else the last response, after the
redirects the client followed), how `encoding/json` writes a string literal and
what `json.Unmarshal` makes of a byte sequence as a `SslResBody`. -/
structure Platform where
  readEnvFile : String → Except String (List (String × String))
  roundTrip : Request → Except String Response
  jsonQuote : String → String
  jsonUnmarshal : String → Except String SslResBody

/-- An effectful library call, as attempted: `httpPost req` is one call of
`client.Post` with these arguments, whatever the client then puts on the wire
for it (see `clientDo`). -/
inductive Event where
  | loadEnv (path : String)
  | httpPost (req : Request)
  | writeFile (path : String) (data : String) (perm : Nat)
  deriving DecidableEq, Repr

/-- The state the program runs in: the process environment (the variables
that are set), the filesystem, and the effectful calls made so far, the oldest
first. -/
structure World where
  env : List (String × String)
  fs : FS
  trace : List Event
  deriving DecidableEq, Repr

/-- The function `os.Getenv`: the value of a variable, empty when it is unset. -/
def osGetenv (key : String) : List (String × String) → String
  | [] => ""
  | (k, v) :: rest => if k = key then v else osGetenv key rest

/-- A variable is set. -/
def envHas (key : String) : List (String × String) → Bool
  | [] => false
  | (k, _) :: rest => if k = key then true else envHas key rest

/-- Set each variable of the file that the environment does not have yet;
`godotenv.Load` "WILL NOT OVERRIDE an env variable that already exists". -/
def loadPairs : List (String × String) → List (String × String) → List (String × String)
  | [], env => env
  | (k, v) :: rest, env =>
    if envHas k env then loadPairs rest env else loadPairs rest (env ++ [(k, v)])

/-- The function `godotenv.Load` for one file: read and parse the file, then
set the variables it defines that are not set yet; on a read or parse error
nothing is set. -/
def godotenvLoad (P : Platform) (path : String) (w : World) : Option String × World :=
  let w1 := { w with trace := w.trace ++ [Event.loadEnv path] }
  match P.readEnvFile path with
  | .error err => (some err, w1)
  | .ok pairs => (none, { w1 with env := loadPairs pairs w1.env })

/-- The method `client.Post` as the program sees it: the call is traced and
its outcome is the one the platform gives.  The trace counts calls, not
requests on the wire: those are the ones of `clientDo`, none when
`http.NewRequest` rejects the URL and several when the client follows
redirects. -/
def clientPost (P : Platform) (url contentType body : String) (w : World) :
    Except String Response × World :=
  let req : Request := { method := "POST", url := url, contentType := contentType, body := body }
  (P.roundTrip req, { w with trace := w.trace ++ [Event.httpPost req] })

/-- The function `json.Marshal` on a `SslReqBody`: an object with the members
`apikey` and `secretapikey` in the order of the fields; it has no way to fail
on a struct of two strings. -/
def jsonMarshal (P : Platform) (body : SslReqBody) : Except String String :=
  .ok ("\x7b\"apikey\":" ++ P.jsonQuote body.ApiKey ++ ",\"secretapikey\":"
    ++ P.jsonQuote body.SecretApiKey ++ "\x7d")

/-- The function `os.WriteFile` in a world: the attempt is traced, and the
filesystem changes when it succeeds. -/
def osWriteFile (path data : String) (perm : Nat) (w : World) : Option String × World :=
  let w1 := { w with trace := w.trace ++ [Event.writeFile path data perm] }
  match w.fs.writeFile path data perm with
  | .error err => (some err, w1)
  | .ok fs1 => (none, { w1 with fs := fs1 })

/-! ## The program (`certbun.go`, lines 44-128) -/

/-- The function `newConfig`. -/
def newConfig : Config := { apiKey := "", secretApiKey := "", domain := "", installDir := "" }

/-- The function `parseConfig`. -/
def parseConfig (w : World) : Config :=
  let conf := newConfig
  let conf := { conf with apiKey := osGetenv "API_KEY" w.env }
  let conf := { conf with secretApiKey := osGetenv "SECRET_API_KEY" w.env }
  let conf := { conf with domain := osGetenv "DOMAIN" w.env }
  let conf := { conf with installDir := osGetenv "CERT_INSTALL_DIR" w.env }
  conf

/-- The function `getSsl`. -/
def getSsl (P : Platform) (conf : Config) (w : World) : Except String SslResBody × World :=
  let body : SslReqBody := { ApiKey := conf.apiKey, SecretApiKey := conf.secretApiKey }
  match jsonMarshal P body with
  | .error err => (.error ("failed to marshal request payload: " ++ err), w)
  | .ok bodyJson =>
    let uri := endpoint ++ "/" ++ conf.domain
    match clientPost P uri "application/json" bodyJson w with
    | (.error err, w1) => (.error ("failed to request ssl certificates: " ++ err), w1)
    | (.ok res, w1) =>
      let (resBody, err) : String × Option String :=
        match res.body with
        | .complete data => (data, none)
        | .failed data e => (data, some e)
      if res.statusCode > 299 then
        (.error ("response failed with status code: " ++ toString res.statusCode
          ++ " and body: " ++ resBody), w1)
      else
        match err with
        | some e => (.error ("failed to read response payload: " ++ e), w1)
        | none =>
          match P.jsonUnmarshal resBody with
          | .error e => (.error ("failed to unmarshal response payload: " ++ e), w1)
          | .ok sslResp => (.ok sslResp, w1)

/-- The function `run`; the writer argument is ignored by the source and left
out.  The result is the returned error (`none` for `nil`) and the world the
run leaves behind. -/
def run (P : Platform) (args : List String) (w : World) : Option String × World :=
  if args.length < 2 then (some "usage: certbot [path/to/config.env]", w)
  else
    match godotenvLoad P (args.getD 1 "") w with
    | (some err, w1) => (some ("failed to read config file: " ++ err), w1)
    | (none, w1) =>
      let conf := parseConfig w1
      match getSsl P conf w1 with
      | (.error err, w2) => (some err, w2)
      | (.ok ssl, w2) =>
        let privPath := filepathJoin conf.installDir "private.key.pem"
        let pubPath := filepathJoin conf.installDir "public.key.pem"
        let certPath := filepathJoin conf.installDir "cert.pem"
        match osWriteFile privPath ssl.PrivateKey 0o600 w2 with
        | (some err, w3) => (some ("failed to write private key: " ++ err), w3)
        | (none, w3) =>
          match osWriteFile pubPath ssl.PublicKey 0o600 w3 with
          | (some err, w4) => (some ("failed to write public key: " ++ err), w4)
          | (none, w4) =>
            match osWriteFile certPath ssl.CertChain 0o600 w4 with
            | (some err, w5) => (some ("failed to write certificate: " ++ err), w5)
            | (none, w5) => (none, w5)

/-! ## A mocked platform for the end-to-end scenario -/

/-- The response body of the end-to-end scenario. -/
def scenarioBody : String :=
  "\x7b\"status\":\"SUCCESS\",\"certificatechain\":\"CHAIN\",\"privatekey\":\"PRIV\",\"publickey\":\"PUB\"\x7d"

/-- The scenario body with the status `ERROR` in place of `SUCCESS`. -/
def errorStatusBody : String :=
  "\x7b\"status\":\"ERROR\",\"certificatechain\":\"CHAIN\",\"privatekey\":\"PRIV\",\"publickey\":\"PUB\"\x7d"

/-- A mocked platform: the file `conf.env` holds the four settings of the
end-to-end scenario, every request is answered by `res`, strings without
special characters are quoted as they are, and the decoder knows the two
scenario bodies and rejects everything else. -/
def mockPlatform (res : Except String Response) : Platform where
  readEnvFile := fun path =>
    if path = "conf.env" then
      .ok [("API_KEY", "abc"), ("SECRET_API_KEY", "def"), ("DOMAIN", "example.com"),
        ("CERT_INSTALL_DIR", "/tmp/certs")]
    else .error ("open " ++ path ++ ": no such file or directory")
  roundTrip := fun _ => res
  jsonQuote := fun s => "\"" ++ s ++ "\""
  jsonUnmarshal := fun b =>
    if b = scenarioBody then
      .ok { Status := "SUCCESS", CertChain := "CHAIN", PrivateKey := "PRIV", PublicKey := "PUB" }
    else if b = errorStatusBody then
      .ok { Status := "ERROR", CertChain := "CHAIN", PrivateKey := "PRIV", PublicKey := "PUB" }
    else .error "invalid character 'o' in literal null (expecting 'u')"

/-- A world with an empty environment, an empty trace and the given
filesystem entries, under the usual mask 022. -/
def mockWorld (entries : List (String × Node)) : World :=
  { env := [], fs := { entries := entries, umask := 0o022 }, trace := [] }

/-- The calls of `client.Post` in a trace, the oldest first. -/
def httpPosts : List Event → List Request
  | [] => []
  | Event.httpPost req :: rest => req :: httpPosts rest
  | _ :: rest => httpPosts rest

/-! ## The client on the wire -/

/-- One answer on the wire: the response, and what its `Location` header
stands for: nothing when the header is missing or empty, the error of the
client when it does not parse, else the URL it names, resolved against the
URL of the request. -/
structure Hop where
  response : Response
  location : Option (Except String String)

/-- The world under `http.Client`: the error of `http.NewRequest` for a URL it
rejects, what comes back for one request handed to the transport (the error of
the client for a transport failure or a timeout, or an answer), and the error
of the client when the default redirect policy stops it. -/
structure Network where
  newRequestError : String → Option String
  answer : Request → Except String Hop
  redirectLimitError : Request → String

/-- What the client does with an answer. -/
inductive Follow where
  | stop
  | fail (err : String)
  | next (req : Request)
  deriving DecidableEq, Repr

/-- The redirect rule of `Client.Do` (`redirectBehavior` in `net/http`), for a
first request `ireq` whose body can be replayed, as the one `client.Post`
builds from a `bytes.Buffer` can: "a 301, 302, or 303 redirect causes
subsequent requests to use HTTP method GET (or HEAD if the original request
was HEAD), with no body.  A 307 or 308 redirect preserves the original HTTP
method and body"; the headers of the first request are forwarded.  A response
with another status code, or with no `Location`, is handed to the caller. -/
def followUp (ireq req : Request) (hop : Hop) : Follow :=
  if hop.response.statusCode = 301 ∨ hop.response.statusCode = 302
      ∨ hop.response.statusCode = 303 then
    match hop.location with
    | none => .stop
    | some (.error e) => .fail e
    | some (.ok url) =>
      .next { method := if req.method = "GET" ∨ req.method = "HEAD" then req.method else "GET"
              url := url
              contentType := ireq.contentType
              body := "" }
  else if hop.response.statusCode = 307 ∨ hop.response.statusCode = 308 then
    match hop.location with
    | none => .stop
    | some (.error e) => .fail e
    | some (.ok url) =>
      .next { method := req.method, url := url, contentType := ireq.contentType,
              body := ireq.body }
  else .stop

/-- The loop of `Client.Do` with `budget` requests left: the requests handed
to the transport, the oldest first, and what the caller gets.  A transport
failure ends the call, a redirect is followed, and the default policy
("stop after 10 consecutive requests") ends it when the budget is used up. -/
def clientSend (N : Network) (ireq : Request) : Nat → Request → List Request × Except String Response
  | 0, req => ([], .error (N.redirectLimitError req))
  | budget + 1, req =>
    match N.answer req with
    | .error e => ([req], .error e)
    | .ok hop =>
      match followUp ireq req hop with
      | .stop => ([req], .ok hop.response)
      | .fail e => ([req], .error e)
      | .next nreq => (req :: (clientSend N ireq budget nreq).1, (clientSend N ireq budget nreq).2)

/-- One call of `client.Post` on the wire: `http.NewRequest` first, which sends
nothing when it rejects the URL, then the loop of `Client.Do` under the default
redirect policy. -/
def clientDo (N : Network) (req : Request) : List Request × Except String Response :=
  match N.newRequestError req.url with
  | some e => ([], .error e)
  | none => clientSend N req 10 req

/-- The requests on the wire for a list of calls of `client.Post`. -/
def wireOfCalls (N : Network) : List Request → List Request
  | [] => []
  | req :: rest => (clientDo N req).1 ++ wireOfCalls N rest

/-- The requests on the wire for the calls of a trace, the oldest first. -/
def wireRequests (N : Network) (trace : List Event) : List Request :=
  wireOfCalls N (httpPosts trace)

/-- The outcome the platform gives for each call of `client.Post` is the one
the client reaches over the network. -/
def Serves (N : Network) (P : Platform) : Prop :=
  ∀ req, P.roundTrip req = (clientDo N req).2

/-- The platform `base` with its calls of `client.Post` served over `N`. -/
def servedPlatform (N : Network) (base : Platform) : Platform :=
  { base with roundTrip := fun req => (clientDo N req).2 }

/-- A network that rejects no URL and answers every request with `res` and no
`Location`. -/
def plainNetwork (res : Except String Response) : Network where
  newRequestError := fun _ => none
  answer := fun _ =>
    match res with
    | .error e => .error e
    | .ok r => .ok { response := r, location := none }
  redirectLimitError := fun _ => "stopped after 10 redirects"

/-- A network whose `http.NewRequest` rejects the URL of the domain `%zz` for
its invalid escape. -/
def strictNetwork : Network where
  newRequestError := fun url =>
    if url = "https://api.porkbun.com/api/json/v3/ssl/retrieve/%zz" then
      some "parse \"https://api.porkbun.com/api/json/v3/ssl/retrieve/%zz\": invalid URL escape \"%zz\""
    else none
  answer := fun _ => .ok { response := ⟨200, .complete scenarioBody⟩, location := none }
  redirectLimitError := fun _ => "stopped after 10 redirects"

/-- A network whose server answers the request for `example.com` with a 307 to
`/moved` and the request to `/moved` with the scenario body. -/
def movedNetwork : Network where
  newRequestError := fun _ => none
  answer := fun req =>
    if req.url = "https://api.porkbun.com/api/json/v3/ssl/retrieve/example.com" then
      .ok { response := ⟨307, .complete ""⟩,
            location := some (.ok "https://api.porkbun.com/moved") }
    else .ok { response := ⟨200, .complete scenarioBody⟩, location := none }
  redirectLimitError := fun _ => "stopped after 10 redirects"

/-- The dotenv file of the scenario with the domain `%zz`. -/
def badDomainEnv : String → Except String (List (String × String)) := fun _ =>
  .ok [("API_KEY", "abc"), ("SECRET_API_KEY", "def"), ("DOMAIN", "%zz"),
    ("CERT_INSTALL_DIR", "/tmp/certs")]

/-- The mocked platform with the domain `%zz`, served over `strictNetwork`. -/
def badDomainPlatform : Platform :=
  servedPlatform strictNetwork
    { mockPlatform (.error "unused") with readEnvFile := badDomainEnv }

/-- The mocked platform served over `movedNetwork`. -/
def movedPlatform : Platform := servedPlatform movedNetwork (mockPlatform (.error "unused"))

/-! ## Vocabulary of the statements -/

/-- A file name: one path element that `filepath.Clean` keeps as it is. -/
def PlainName (n : List Char) : Prop :=
  '/' ∉ n ∧ n ≠ [] ∧ n ≠ ['.'] ∧ n ≠ ['.', '.']

/-- The characters `filepath.Join` puts before a file name joined to the
directory `d`. -/
def dirLead (d : List Char) : List Char :=
  if d = [] then []
  else if d.head? = some '/' then
    (if cleanStack d = [] then ['/'] else '/' :: joinSlash (cleanStack d).reverse ++ ['/'])
  else (if cleanStack d = [] then [] else joinSlash (cleanStack d).reverse ++ ['/'])

/-- The bytes `io.ReadAll` returned, whether or not the read failed. -/
def bodyData : BodyRead → String
  | .complete data => data
  | .failed data _ => data

/-- The request `getSsl` hands to `client.Post` for a configuration. -/
def sslRequest (P : Platform) (conf : Config) : Request :=
  { method := "POST"
    url := endpoint ++ "/" ++ conf.domain
    contentType := "application/json"
    body := "\x7b\"apikey\":" ++ P.jsonQuote conf.apiKey ++ ",\"secretapikey\":"
      ++ P.jsonQuote conf.secretApiKey ++ "\x7d" }

/-- The world after `getSsl` has called `client.Post`. -/
def afterPost (P : Platform) (conf : Config) (w : World) : World :=
  { w with trace := w.trace ++ [Event.httpPost (sslRequest P conf)] }

/-- The world after `godotenv.Load` has read the pairs of a file. -/
def afterLoad (path : String) (pairs : List (String × String)) (w : World) : World :=
  { env := loadPairs pairs w.env, fs := w.fs, trace := w.trace ++ [Event.loadEnv path] }

/-- The path of the private key. -/
def privPath (conf : Config) : String := filepathJoin conf.installDir "private.key.pem"

/-- The path of the public key. -/
def pubPath (conf : Config) : String := filepathJoin conf.installDir "public.key.pem"

/-- The path of the certificate chain. -/
def certPath (conf : Config) : String := filepathJoin conf.installDir "cert.pem"

/-- The permission bits of a file after `os.WriteFile` has written it: those
it had when it existed, the requested ones less the mask when it is new. -/
def permAfterWrite (fs : FS) (path : String) (perm : Nat) : Nat :=
  match fs.lookup path with
  | some (.file _ m) => m
  | _ => applyUmask perm fs.umask

/-- A target path can take a file: nothing is there, or a regular file its
owner may write. -/
def Writable (fs : FS) (path : String) : Prop :=
  match fs.lookup path with
  | none => True
  | some (.file _ m) => ownerWrite m = true
  | some (.dir _) => False

instance instDecidableWritable (fs : FS) (path : String) : Decidable (Writable fs path) := by
  unfold Writable
  split <;> infer_instance

/-! ## Facts about paths -/

theorem splitSlash_ne_nil (p : List Char) : splitSlash p ≠ [] := by
  cases p with
  | nil => simp [splitSlash]
  | cons c cs =>
    unfold splitSlash
    split
    · simp
    · split <;> simp

theorem splitSlash_plain (n : List Char) (h : '/' ∉ n) : splitSlash n = [n] := by
  induction n with
  | nil => rfl
  | cons c cs ih =>
    have hc : c ≠ '/' := fun e => h (by simp [e])
    have hcs : '/' ∉ cs := fun e => h (by simp [e])
    simp [splitSlash, hc, ih hcs]

theorem splitSlash_append (a n : List Char) :
    splitSlash (a ++ '/' :: n) = splitSlash a ++ splitSlash n := by
  induction a with
  | nil => simp [splitSlash]
  | cons c cs ih =>
    by_cases hc : c = '/'
    · simp [splitSlash, hc, ih]
    · have hne := splitSlash_ne_nil cs
      cases hs : splitSlash cs with
      | nil => exact absurd hs hne
      | cons h t => simp [splitSlash, hc, ih, hs]

theorem cleanStep_plain (rooted : Bool) (st : List (List Char)) (n : List Char)
    (hn : PlainName n) : cleanStep rooted st n = n :: st := by
  obtain ⟨_, h1, h2, h3⟩ := hn
  simp [cleanStep, h1, h2, h3]

theorem cleanStack_join (d n : List Char) (hd : d ≠ []) (hn : PlainName n) :
    cleanStack (d ++ '/' :: n) = n :: cleanStack d := by
  have hh : (d ++ '/' :: n).head? = d.head? := by
    cases d with
    | nil => exact absurd rfl hd
    | cons c cs => rfl
  unfold cleanStack
  rw [hh, splitSlash_append, splitSlash_plain n hn.1, List.foldl_append]
  simp [cleanStep_plain _ _ n hn]

theorem cleanStack_plain (n : List Char) (hn : PlainName n) : cleanStack n = [n] := by
  unfold cleanStack
  rw [splitSlash_plain n hn.1]
  simp [cleanStep_plain _ _ n hn]

theorem joinSlash_snoc (l : List (List Char)) (n : List Char) (hl : l ≠ []) :
    joinSlash (l ++ [n]) = joinSlash l ++ '/' :: n := by
  induction l with
  | nil => exact absurd rfl hl
  | cons c t ih =>
    cases t with
    | nil => simp [joinSlash]
    | cons d t2 =>
      have := ih (by simp)
      simp [joinSlash] at this ⊢
      rw [this]

theorem cleanStep_nonempty (rooted : Bool) (st : List (List Char)) (c : List Char)
    (h : ∀ x ∈ st, x ≠ []) : ∀ x ∈ cleanStep rooted st c, x ≠ [] := by
  unfold cleanStep
  split
  · exact h
  · rename_i h1
    split
    · rename_i h2
      cases st with
      | nil =>
        cases rooted <;> simp [h2]
      | cons top rest =>
        simp only
        split
        · intro x hx
          rcases List.mem_cons.1 hx with e | e
          · simp [e, h2]
          · exact h x e
        · intro x hx
          exact h x (List.mem_cons_of_mem _ hx)
    · intro x hx
      rcases List.mem_cons.1 hx with e | e
      · intro e2
        exact h1 (Or.inl (e ▸ e2))
      · exact h x e

theorem foldl_cleanStep_nonempty (rooted : Bool) (cs : List (List Char)) :
    ∀ st : List (List Char), (∀ x ∈ st, x ≠ []) →
      ∀ x ∈ cs.foldl (cleanStep rooted) st, x ≠ [] := by
  induction cs with
  | nil => intro st h; simpa using h
  | cons c t ih =>
    intro st h
    simp only [List.foldl_cons]
    exact ih _ (cleanStep_nonempty rooted st c h)

theorem cleanStack_nonempty (p : List Char) : ∀ x ∈ cleanStack p, x ≠ [] :=
  foldl_cleanStep_nonempty _ _ [] (by simp)

theorem joinSlash_ne_nil (l : List (List Char)) (hl : l ≠ []) (h : ∀ x ∈ l, x ≠ []) :
    joinSlash l ≠ [] := by
  cases l with
  | nil => exact absurd rfl hl
  | cons c t =>
    have hc : c ≠ [] := h c (by simp)
    cases t with
    | nil => simpa [joinSlash] using hc
    | cons d t2 => simp [joinSlash, hc]

theorem beforeLastSlash_plain (n : List Char) (h : '/' ∉ n) : beforeLastSlash n = none := by
  induction n with
  | nil => rfl
  | cons c cs ih =>
    have hc : c ≠ '/' := fun e => h (by simp [e])
    have hcs : '/' ∉ cs := fun e => h (by simp [e])
    simp [beforeLastSlash, ih hcs, hc]

theorem beforeLastSlash_snoc (a n : List Char) (h : '/' ∉ n) :
    beforeLastSlash (a ++ '/' :: n) = some a := by
  induction a with
  | nil => simp [beforeLastSlash, beforeLastSlash_plain n h]
  | cons c cs ih => simp [beforeLastSlash, ih]

theorem cleanChars_plain (n : List Char) (hn : PlainName n) : cleanChars n = n := by
  have hh : n.head? ≠ some '/' := by
    intro e
    cases n with
    | nil => simp at e
    | cons c cs =>
      simp at e
      exact hn.1 (by simp [e])
  simp [cleanChars, hh, cleanStack_plain n hn, joinSlash]

theorem cleanChars_join (d n : List Char) (hd : d ≠ []) (hn : PlainName n) :
    cleanChars (d ++ '/' :: n) = dirLead d ++ n := by
  have hh : (d ++ '/' :: n).head? = d.head? := by
    cases d with
    | nil => exact absurd rfl hd
    | cons c cs => rfl
  unfold cleanChars dirLead
  rw [hh, cleanStack_join d n hd hn]
  by_cases hst : cleanStack d = []
  · by_cases hr : d.head? = some '/' <;> simp [hd, hr, hst, joinSlash]
  · have hrev : (cleanStack d).reverse ≠ [] := by simpa using hst
    have := joinSlash_snoc (cleanStack d).reverse n hrev
    by_cases hr : d.head? = some '/' <;> simp [hd, hr, hst, this]

theorem filepathJoin_data (d n : String) (hn : PlainName n.data) :
    (filepathJoin d n).data = dirLead d.data ++ n.data := by
  have hne : n ≠ "" := by
    intro e
    exact hn.2.1 (by simp [e])
  by_cases hd : d = ""
  · subst hd
    simp [filepathJoin, hne, filepathClean, cleanChars_plain n.data hn, dirLead]
  · have hd2 : d.data ≠ [] := by
      intro e
      apply hd
      exact String.ext e
    have : (d ++ "/" ++ n).data = d.data ++ '/' :: n.data := by simp
    simp [filepathJoin, hd, filepathClean, this, cleanChars_join d.data n.data hd2 hn]

theorem parentDir_filepathJoin (d n : String) (hn : PlainName n.data) :
    parentDir (filepathJoin d n) = filepathClean d := by
  unfold parentDir
  rw [filepathJoin_data d n hn]
  unfold filepathClean cleanChars dirLead
  by_cases hd : d.data = []
  · simp [hd, beforeLastSlash_plain n.data hn.1, cleanStack, splitSlash, cleanStep]
  · have hrev (h : cleanStack d.data ≠ []) : joinSlash (cleanStack d.data).reverse ≠ [] := by
      apply joinSlash_ne_nil
      · simpa using h
      · intro x hx
        exact cleanStack_nonempty d.data x (by simpa using hx)
    by_cases hr : d.data.head? = some '/'
    · by_cases hst : cleanStack d.data = []
      · have := beforeLastSlash_snoc [] n.data hn.1
        simp at this
        simp [hd, hr, hst, this, joinSlash]
      · have := beforeLastSlash_snoc ('/' :: joinSlash (cleanStack d.data).reverse) n.data hn.1
        simp at this
        simp [hd, hr, hst, this]
    · by_cases hst : cleanStack d.data = []
      · simp [hd, hr, hst, beforeLastSlash_plain n.data hn.1]
      · have := beforeLastSlash_snoc (joinSlash (cleanStack d.data).reverse) n.data hn.1
        have h2 := hrev hst
        simp [hd, hr, hst, this]

theorem filepathJoin_injective (d n m : String) (hn : PlainName n.data) (hm : PlainName m.data)
    (h : filepathJoin d n = filepathJoin d m) : n = m := by
  have := congrArg String.data h
  rw [filepathJoin_data d n hn, filepathJoin_data d m hm] at this
  exact String.ext (List.append_cancel_left this)

/-! ## Facts about `getSsl` -/

theorem getSsl_transport_error (P : Platform) (conf : Config) (w : World) (e : String)
    (h : P.roundTrip (sslRequest P conf) = .error e) :
    getSsl P conf w
      = (.error ("failed to request ssl certificates: " ++ e), afterPost P conf w) := by
  simp only [sslRequest] at h
  simp [getSsl, jsonMarshal, clientPost, afterPost, sslRequest, h]

theorem getSsl_status_error (P : Platform) (conf : Config) (w : World) (res : Response)
    (h : P.roundTrip (sslRequest P conf) = .ok res) (hs : 300 ≤ res.statusCode) :
    getSsl P conf w
      = (.error ("response failed with status code: " ++ toString res.statusCode
          ++ " and body: " ++ bodyData res.body), afterPost P conf w) := by
  have hs2 : res.statusCode > 299 := by omega
  simp only [sslRequest] at h
  cases hb : res.body <;>
    simp [getSsl, jsonMarshal, clientPost, afterPost, sslRequest, h, hs2, hb, bodyData]

theorem getSsl_read_error (P : Platform) (conf : Config) (w : World) (res : Response)
    (data e : String)
    (h : P.roundTrip (sslRequest P conf) = .ok res) (hs : res.statusCode ≤ 299)
    (hb : res.body = .failed data e) :
    getSsl P conf w
      = (.error ("failed to read response payload: " ++ e), afterPost P conf w) := by
  have hs2 : ¬ res.statusCode > 299 := by omega
  simp only [sslRequest] at h
  simp [getSsl, jsonMarshal, clientPost, afterPost, sslRequest, h, hs2, hb]

theorem getSsl_decode_error (P : Platform) (conf : Config) (w : World) (res : Response)
    (data e : String)
    (h : P.roundTrip (sslRequest P conf) = .ok res) (hs : res.statusCode ≤ 299)
    (hb : res.body = .complete data) (hj : P.jsonUnmarshal data = .error e) :
    getSsl P conf w
      = (.error ("failed to unmarshal response payload: " ++ e), afterPost P conf w) := by
  have hs2 : ¬ res.statusCode > 299 := by omega
  simp only [sslRequest] at h
  simp [getSsl, jsonMarshal, clientPost, afterPost, sslRequest, h, hs2, hb, hj]

theorem getSsl_ok (P : Platform) (conf : Config) (w : World) (res : Response)
    (data : String) (ssl : SslResBody)
    (h : P.roundTrip (sslRequest P conf) = .ok res) (hs : res.statusCode ≤ 299)
    (hb : res.body = .complete data) (hj : P.jsonUnmarshal data = .ok ssl) :
    getSsl P conf w = (.ok ssl, afterPost P conf w) := by
  have hs2 : ¬ res.statusCode > 299 := by omega
  simp only [sslRequest] at h
  simp [getSsl, jsonMarshal, clientPost, afterPost, sslRequest, h, hs2, hb, hj]

theorem getSsl_world (P : Platform) (conf : Config) (w : World) :
    (getSsl P conf w).2 = afterPost P conf w := by
  cases h : P.roundTrip (sslRequest P conf) with
  | error e => rw [getSsl_transport_error P conf w e h]
  | ok res =>
    by_cases hs : 300 ≤ res.statusCode
    · rw [getSsl_status_error P conf w res h hs]
    · have hs2 : res.statusCode ≤ 299 := by omega
      cases hb : res.body with
      | failed data e => rw [getSsl_read_error P conf w res data e h hs2 hb]
      | complete data =>
        cases hj : P.jsonUnmarshal data with
        | error e => rw [getSsl_decode_error P conf w res data e h hs2 hb hj]
        | ok ssl => rw [getSsl_ok P conf w res data ssl h hs2 hb hj]

/-- Two strings that start with different characters differ. -/
theorem ne_of_first_char (a b : String) (h : a.data.head? ≠ b.data.head?) : a ≠ b :=
  fun e => h (by rw [e])

theorem read_error_ne_status_error (e : String) (n : Int) (d : String) :
    "failed to read response payload: " ++ e
      ≠ "response failed with status code: " ++ toString n ++ " and body: " ++ d := by
  apply ne_of_first_char
  simp

theorem decode_error_ne_status_error (e : String) (n : Int) (d : String) :
    "failed to unmarshal response payload: " ++ e
      ≠ "response failed with status code: " ++ toString n ++ " and body: " ++ d := by
  apply ne_of_first_char
  simp

/-! ## The fetcher: claims C6 and C8 -/

/-- C6: when the transport succeeded, `getSsl` returns the status error, which
holds the decimal status code and the body text as received, exactly when the
status code is 300 or more; that result does not depend on the JSON decoder
(the body is not parsed on this path), and a response with a status code of 299
or less whose body was read takes the JSON path. -/
theorem getSsl_status_error_iff (P : Platform) (conf : Config) (w : World) (res : Response)
    (hres : P.roundTrip (sslRequest P conf) = .ok res) :
    ((getSsl P conf w).1
        = .error ("response failed with status code: " ++ toString res.statusCode
            ++ " and body: " ++ bodyData res.body)
      ↔ 300 ≤ res.statusCode)
    ∧ (300 ≤ res.statusCode → ∀ u : String → Except String SslResBody,
        getSsl { P with jsonUnmarshal := u } conf w = getSsl P conf w)
    ∧ (res.statusCode ≤ 299 → ∀ data, res.body = .complete data →
        (getSsl P conf w).1
          = match P.jsonUnmarshal data with
            | .error e => .error ("failed to unmarshal response payload: " ++ e)
            | .ok sslResp => .ok sslResp) := by
  refine ⟨⟨?_, ?_⟩, ?_, ?_⟩
  · intro h
    by_contra hlt
    have hs2 : res.statusCode ≤ 299 := by omega
    cases hb : res.body with
    | failed data e =>
      rw [getSsl_read_error P conf w res data e hres hs2 hb] at h
      simp only [Except.error.injEq] at h
      exact read_error_ne_status_error _ _ _ h
    | complete data =>
      cases hj : P.jsonUnmarshal data with
      | error e =>
        rw [getSsl_decode_error P conf w res data e hres hs2 hb hj] at h
        simp only [Except.error.injEq] at h
        exact decode_error_ne_status_error _ _ _ h
      | ok ssl =>
        rw [getSsl_ok P conf w res data ssl hres hs2 hb hj] at h
        simp at h
  · intro hs
    rw [getSsl_status_error P conf w res hres hs]
  · intro hs u
    have hres2 : ({ P with jsonUnmarshal := u } : Platform).roundTrip
        (sslRequest { P with jsonUnmarshal := u } conf) = .ok res := hres
    rw [getSsl_status_error P conf w res hres hs, getSsl_status_error _ conf w res hres2 hs]
    rfl
  · intro hs data hb
    cases hj : P.jsonUnmarshal data with
    | error e => rw [getSsl_decode_error P conf w res data e hres hs hb hj]
    | ok ssl => rw [getSsl_ok P conf w res data ssl hres hs hb hj]

/-- C8: for a response with a status code of 300 or more whose body read
failed, `getSsl` returns the status error with the part of the body that was
read, not the read error; the read error is returned only for a status code
below 300. -/
theorem getSsl_status_before_read_error (P : Platform) (conf : Config) (w : World)
    (res : Response) (hres : P.roundTrip (sslRequest P conf) = .ok res) :
    (300 ≤ res.statusCode → ∀ data e, res.body = .failed data e →
        (getSsl P conf w).1
            = .error ("response failed with status code: " ++ toString res.statusCode
                ++ " and body: " ++ data)
          ∧ (getSsl P conf w).1 ≠ .error ("failed to read response payload: " ++ e))
    ∧ (∀ e, (getSsl P conf w).1 = .error ("failed to read response payload: " ++ e) →
        res.statusCode < 300) := by
  constructor
  · intro hs data e hb
    rw [getSsl_status_error P conf w res hres hs, hb]
    refine ⟨rfl, ?_⟩
    intro h
    simp only [bodyData, Except.error.injEq] at h
    exact read_error_ne_status_error _ _ _ h.symm
  · intro e h
    by_contra hlt
    have hs : 300 ≤ res.statusCode := by omega
    rw [getSsl_status_error P conf w res hres hs] at h
    simp only [Except.error.injEq] at h
    exact read_error_ne_status_error _ _ _ h.symm

/-! ## Facts about the filesystem -/

theorem lookupEntry_setEntry_same (p : String) (n : Node) (es : List (String × Node)) :
    lookupEntry p (setEntry p n es) = some n := by
  induction es with
  | nil => simp [setEntry, lookupEntry]
  | cons hd tl ih =>
    obtain ⟨q, m⟩ := hd
    by_cases h : q = p
    · simp [setEntry, lookupEntry, h]
    · simp [setEntry, lookupEntry, h, ih]

theorem lookupEntry_setEntry_other (p q : String) (n : Node) (es : List (String × Node))
    (hq : q ≠ p) : lookupEntry q (setEntry p n es) = lookupEntry q es := by
  induction es with
  | nil =>
    have : p ≠ q := fun e => hq e.symm
    simp [setEntry, lookupEntry, this]
  | cons hd tl ih =>
    obtain ⟨r, m⟩ := hd
    by_cases h : r = p
    · have : ¬ p = q := fun e => hq e.symm
      simp [setEntry, lookupEntry, h, this]
    · by_cases h2 : r = q
      · subst h2
        simp [setEntry, lookupEntry, hq]
      · simp [setEntry, lookupEntry, h, h2, ih]

/-- What a successful `os.WriteFile` leaves: the file with the new content and
the permission bits of `permAfterWrite`, every other entry and the mask as they
were. -/
theorem writeFile_ok_spec (fs fs1 : FS) (path data : String) (perm : Nat)
    (h : fs.writeFile path data perm = .ok fs1) :
    fs1.lookup path = some (.file data (permAfterWrite fs path perm))
      ∧ (∀ q, q ≠ path → fs1.lookup q = fs.lookup q)
      ∧ fs1.umask = fs.umask := by
  unfold FS.writeFile at h
  split at h
  · simp at h
  · simp at h
  · split at h
    · simp at h
    · split at h
      · simp at h
      · rename_i c fperm hl
        split at h
        · simp only [Except.ok.injEq] at h
          subst h
          refine ⟨?_, ?_, rfl⟩
          · have hl2 : lookupEntry path fs.entries = _ := hl
            simp [FS.lookup, lookupEntry_setEntry_same, permAfterWrite, hl2]
          · intro q hq
            simp [FS.lookup, lookupEntry_setEntry_other _ _ _ _ hq]
        · simp at h
      · rename_i hl
        split at h
        · simp only [Except.ok.injEq] at h
          subst h
          refine ⟨?_, ?_, rfl⟩
          · have hl2 : lookupEntry path fs.entries = _ := hl
            simp [FS.lookup, lookupEntry_setEntry_same, permAfterWrite, hl2]
          · intro q hq
            simp [FS.lookup, lookupEntry_setEntry_other _ _ _ _ hq]
        · simp at h

/-- When `os.WriteFile` succeeds: the directory of the path is there and may
be searched and written, and the path can take a file. -/
theorem writeFile_succeeds (fs : FS) (path data : String) (perm dperm : Nat)
    (hdir : fs.lookup (parentDir path) = some (.dir dperm))
    (hs : ownerSearch dperm = true) (hw : ownerWrite dperm = true)
    (hp : Writable fs path) :
    ∃ fs1, fs.writeFile path data perm = .ok fs1 := by
  unfold Writable at hp
  unfold FS.writeFile
  rw [hdir]
  simp only [hs, hw]
  cases hl : fs.lookup path with
  | none => simp
  | some n =>
    cases n with
    | dir m => simp [hl] at hp
    | file c m =>
      simp only [hl] at hp
      simp [hp]

/-! ## Facts about `run` -/

theorem godotenvLoad_ok (P : Platform) (path : String) (w : World)
    (pairs : List (String × String)) (h : P.readEnvFile path = .ok pairs) :
    godotenvLoad P path w = (none, afterLoad path pairs w) := by
  simp [godotenvLoad, h, afterLoad]

theorem osWriteFile_ok (path data : String) (perm : Nat) (w : World) (fs1 : FS)
    (h : w.fs.writeFile path data perm = .ok fs1) :
    osWriteFile path data perm w
      = (none, { env := w.env, fs := fs1,
                 trace := w.trace ++ [Event.writeFile path data perm] }) := by
  simp [osWriteFile, h]

theorem osWriteFile_error (path data : String) (perm : Nat) (w : World) (e : String)
    (h : w.fs.writeFile path data perm = .error e) :
    osWriteFile path data perm w
      = (some e, { env := w.env, fs := w.fs,
                   trace := w.trace ++ [Event.writeFile path data perm] }) := by
  simp [osWriteFile, h]

/-- A run that gets past the argument check and the dotenv file continues with
the fetch. -/
theorem run_loaded (P : Platform) (args : List String) (w : World)
    (pairs : List (String × String)) (hargs : 2 ≤ args.length)
    (hload : P.readEnvFile (args.getD 1 "") = .ok pairs) :
    run P args w =
      match getSsl P (parseConfig (afterLoad (args.getD 1 "") pairs w))
          (afterLoad (args.getD 1 "") pairs w) with
      | (.error err, w2) => (some err, w2)
      | (.ok ssl, w2) =>
        match osWriteFile (privPath (parseConfig (afterLoad (args.getD 1 "") pairs w)))
            ssl.PrivateKey 0o600 w2 with
        | (some err, w3) => (some ("failed to write private key: " ++ err), w3)
        | (none, w3) =>
          match osWriteFile (pubPath (parseConfig (afterLoad (args.getD 1 "") pairs w)))
              ssl.PublicKey 0o600 w3 with
          | (some err, w4) => (some ("failed to write public key: " ++ err), w4)
          | (none, w4) =>
            match osWriteFile (certPath (parseConfig (afterLoad (args.getD 1 "") pairs w)))
                ssl.CertChain 0o600 w4 with
            | (some err, w5) => (some ("failed to write certificate: " ++ err), w5)
            | (none, w5) => (none, w5) := by
  have h2 : ¬ args.length < 2 := by omega
  unfold run
  rw [if_neg h2, godotenvLoad_ok P _ w pairs hload]
  rfl

/-- A run whose fetch fails returns the fetcher's error right after the
request. -/
theorem run_fetch_error (P : Platform) (args : List String) (w : World)
    (pairs : List (String × String)) (err : String) (hargs : 2 ≤ args.length)
    (hload : P.readEnvFile (args.getD 1 "") = .ok pairs)
    (hget : (getSsl P (parseConfig (afterLoad (args.getD 1 "") pairs w))
        (afterLoad (args.getD 1 "") pairs w)).1 = .error err) :
    run P args w = (some err, afterPost P (parseConfig (afterLoad (args.getD 1 "") pairs w))
      (afterLoad (args.getD 1 "") pairs w)) := by
  rw [run_loaded P args w pairs hargs hload]
  have hw := getSsl_world P (parseConfig (afterLoad (args.getD 1 "") pairs w))
    (afterLoad (args.getD 1 "") pairs w)
  generalize getSsl P (parseConfig (afterLoad (args.getD 1 "") pairs w))
    (afterLoad (args.getD 1 "") pairs w) = r at hget hw
  obtain ⟨r1, r2⟩ := r
  simp only at hget hw
  subst hget hw
  rfl

/-- A run whose fetch succeeds goes through the three writes in order and
stops at the first one that fails. -/
theorem run_fetched (P : Platform) (args : List String) (w : World)
    (pairs : List (String × String)) (conf : Config) (ssl : SslResBody)
    (hargs : 2 ≤ args.length)
    (hload : P.readEnvFile (args.getD 1 "") = .ok pairs)
    (hconf : conf = parseConfig (afterLoad (args.getD 1 "") pairs w))
    (hget : (getSsl P conf (afterLoad (args.getD 1 "") pairs w)).1 = .ok ssl) :
    run P args w =
      match w.fs.writeFile (privPath conf) ssl.PrivateKey 0o600 with
      | .error e =>
        (some ("failed to write private key: " ++ e),
          { env := loadPairs pairs w.env, fs := w.fs,
            trace := w.trace ++ [Event.loadEnv (args.getD 1 ""),
              Event.httpPost (sslRequest P conf),
              Event.writeFile (privPath conf) ssl.PrivateKey 0o600] })
      | .ok fs1 =>
        match fs1.writeFile (pubPath conf) ssl.PublicKey 0o600 with
        | .error e =>
          (some ("failed to write public key: " ++ e),
            { env := loadPairs pairs w.env, fs := fs1,
              trace := w.trace ++ [Event.loadEnv (args.getD 1 ""),
                Event.httpPost (sslRequest P conf),
                Event.writeFile (privPath conf) ssl.PrivateKey 0o600,
                Event.writeFile (pubPath conf) ssl.PublicKey 0o600] })
        | .ok fs2 =>
          match fs2.writeFile (certPath conf) ssl.CertChain 0o600 with
          | .error e =>
            (some ("failed to write certificate: " ++ e),
              { env := loadPairs pairs w.env, fs := fs2,
                trace := w.trace ++ [Event.loadEnv (args.getD 1 ""),
                  Event.httpPost (sslRequest P conf),
                  Event.writeFile (privPath conf) ssl.PrivateKey 0o600,
                  Event.writeFile (pubPath conf) ssl.PublicKey 0o600,
                  Event.writeFile (certPath conf) ssl.CertChain 0o600] })
          | .ok fs3 =>
            (none,
              { env := loadPairs pairs w.env, fs := fs3,
                trace := w.trace ++ [Event.loadEnv (args.getD 1 ""),
                  Event.httpPost (sslRequest P conf),
                  Event.writeFile (privPath conf) ssl.PrivateKey 0o600,
                  Event.writeFile (pubPath conf) ssl.PublicKey 0o600,
                  Event.writeFile (certPath conf) ssl.CertChain 0o600] }) := by
  subst hconf
  rw [run_loaded P args w pairs hargs hload]
  have hw := getSsl_world P (parseConfig (afterLoad (args.getD 1 "") pairs w))
    (afterLoad (args.getD 1 "") pairs w)
  generalize getSsl P (parseConfig (afterLoad (args.getD 1 "") pairs w))
    (afterLoad (args.getD 1 "") pairs w) = r at hget hw
  obtain ⟨r1, r2⟩ := r
  simp only at hget hw
  subst hget hw
  simp only
  cases h1 : w.fs.writeFile (privPath (parseConfig (afterLoad (args.getD 1 "") pairs w)))
      ssl.PrivateKey 0o600 with
  | error e =>
    rw [osWriteFile_error _ _ _ _ e (by simpa [afterPost, afterLoad] using h1)]
    simp [afterPost, afterLoad]
  | ok fs1 =>
    rw [osWriteFile_ok _ _ _ _ fs1 (by simpa [afterPost, afterLoad] using h1)]
    simp only
    cases h2 : fs1.writeFile (pubPath (parseConfig (afterLoad (args.getD 1 "") pairs w)))
        ssl.PublicKey 0o600 with
    | error e =>
      rw [osWriteFile_error _ _ _ _ e h2]
      simp [afterPost, afterLoad]
    | ok fs2 =>
      rw [osWriteFile_ok _ _ _ _ fs2 h2]
      simp only
      cases h3 : fs2.writeFile (certPath (parseConfig (afterLoad (args.getD 1 "") pairs w)))
          ssl.CertChain 0o600 with
      | error e =>
        rw [osWriteFile_error _ _ _ _ e h3]
        simp [afterPost, afterLoad]
      | ok fs3 =>
        rw [osWriteFile_ok _ _ _ _ fs3 h3]
        simp [afterPost, afterLoad]

/-! ## The run: claims C2, C3 and C4 -/

/-- C4: with fewer than two arguments `run` returns the usage error and leaves
the world as it was: no dotenv file is loaded, no request is sent and no file
is written (environment, trace and filesystem are unchanged). -/
theorem run_usage_error (P : Platform) (args : List String) (w : World)
    (h : args.length < 2) :
    run P args w = (some "usage: certbot [path/to/config.env]", w) := by
  simp [run, h]

theorem run_usage_error_witness :
    run (mockPlatform (.error "dial tcp: connection refused")) ["certbun"]
        (mockWorld [("/tmp/certs", .dir 0o755)])
      = (some "usage: certbot [path/to/config.env]", mockWorld [("/tmp/certs", .dir 0o755)]) :=
  run_usage_error _ ["certbun"] _ (by decide)

/-- C2: when the response has a status code of 300 or more, whatever its body,
`run` returns the status error, the filesystem is the one before the run, and
the run made no write attempt (its calls are the load and the request). -/
theorem run_error_status_writes_nothing (P : Platform) (args : List String) (w : World)
    (pairs : List (String × String)) (conf : Config) (res : Response)
    (hargs : 2 ≤ args.length)
    (hload : P.readEnvFile (args.getD 1 "") = .ok pairs)
    (hconf : conf = parseConfig (afterLoad (args.getD 1 "") pairs w))
    (hres : P.roundTrip (sslRequest P conf) = .ok res)
    (hs : 300 ≤ res.statusCode) :
    (run P args w).1
        = some ("response failed with status code: " ++ toString res.statusCode
            ++ " and body: " ++ bodyData res.body)
      ∧ (run P args w).2.fs = w.fs
      ∧ (run P args w).2.trace
        = w.trace ++ [Event.loadEnv (args.getD 1 ""), Event.httpPost (sslRequest P conf)] := by
  subst hconf
  have hget := getSsl_status_error P _ (afterLoad (args.getD 1 "") pairs w) res hres hs
  rw [run_fetch_error P args w pairs _ hargs hload (by rw [hget])]
  simp [afterPost, afterLoad]

theorem run_error_status_writes_nothing_witness :
    (run (mockPlatform (.ok ⟨404, .complete "nope"⟩)) ["certbun", "conf.env"]
        (mockWorld [("/tmp/certs", .dir 0o755)])).1
        = some ("response failed with status code: " ++ toString (404 : Int)
            ++ " and body: " ++ bodyData (.complete "nope"))
      ∧ (run (mockPlatform (.ok ⟨404, .complete "nope"⟩)) ["certbun", "conf.env"]
          (mockWorld [("/tmp/certs", .dir 0o755)])).2.fs
        = (mockWorld [("/tmp/certs", .dir 0o755)]).fs :=
  have h := run_error_status_writes_nothing (mockPlatform (.ok ⟨404, .complete "nope"⟩))
    ["certbun", "conf.env"] (mockWorld [("/tmp/certs", .dir 0o755)]) _ _
    ⟨404, .complete "nope"⟩ (by decide) rfl rfl rfl (by decide)
  ⟨h.1, h.2.1⟩

/-- C3: when the response has a status code below 300 and a body that
`json.Unmarshal` rejects, `getSsl` fails with the decode error that holds the
decoder's message, `run` returns that error, the filesystem is the one before
the run and no write was attempted. -/
theorem run_decode_error_writes_nothing (P : Platform) (args : List String) (w : World)
    (pairs : List (String × String)) (conf : Config) (res : Response) (data e : String)
    (hargs : 2 ≤ args.length)
    (hload : P.readEnvFile (args.getD 1 "") = .ok pairs)
    (hconf : conf = parseConfig (afterLoad (args.getD 1 "") pairs w))
    (hres : P.roundTrip (sslRequest P conf) = .ok res)
    (hs : res.statusCode < 300)
    (hbody : res.body = .complete data)
    (hjson : P.jsonUnmarshal data = .error e) :
    (getSsl P conf (afterLoad (args.getD 1 "") pairs w)).1
        = .error ("failed to unmarshal response payload: " ++ e)
      ∧ (run P args w).1 = some ("failed to unmarshal response payload: " ++ e)
      ∧ (run P args w).2.fs = w.fs
      ∧ (run P args w).2.trace
        = w.trace ++ [Event.loadEnv (args.getD 1 ""), Event.httpPost (sslRequest P conf)] := by
  subst hconf
  have hs2 : res.statusCode ≤ 299 := by omega
  have hget := getSsl_decode_error P _ (afterLoad (args.getD 1 "") pairs w) res data e
    hres hs2 hbody hjson
  rw [run_fetch_error P args w pairs _ hargs hload (by rw [hget]), hget]
  simp [afterPost, afterLoad]

theorem run_decode_error_writes_nothing_witness :
    (run (mockPlatform (.ok ⟨200, .complete "nope"⟩)) ["certbun", "conf.env"]
        (mockWorld [("/tmp/certs", .dir 0o755)])).1
        = some ("failed to unmarshal response payload: "
            ++ "invalid character 'o' in literal null (expecting 'u')")
      ∧ (run (mockPlatform (.ok ⟨200, .complete "nope"⟩)) ["certbun", "conf.env"]
          (mockWorld [("/tmp/certs", .dir 0o755)])).2.fs
        = (mockWorld [("/tmp/certs", .dir 0o755)]).fs :=
  have h := run_decode_error_writes_nothing (mockPlatform (.ok ⟨200, .complete "nope"⟩))
    ["certbun", "conf.env"] (mockWorld [("/tmp/certs", .dir 0o755)]) _ _
    ⟨200, .complete "nope"⟩ "nope" _ (by decide) rfl rfl rfl (by decide) rfl
    (by simp [mockPlatform, scenarioBody, errorStatusBody])
  ⟨h.2.1, h.2.2.1⟩

/-! ## Witnesses for the fetcher claims, and claim C9 -/

theorem getSsl_status_error_iff_witness :
    ((getSsl (mockPlatform (.ok ⟨500, .complete "oops"⟩)) newConfig (mockWorld [])).1
        = .error ("response failed with status code: " ++ toString (500 : Int)
            ++ " and body: " ++ bodyData (.complete "oops"))
      ↔ (300 : Int) ≤ 500) :=
  (getSsl_status_error_iff (mockPlatform (.ok ⟨500, .complete "oops"⟩)) newConfig
    (mockWorld []) ⟨500, .complete "oops"⟩ rfl).1

theorem getSsl_status_before_read_error_witness :
    (getSsl (mockPlatform (.ok ⟨502, .failed "par" "unexpected EOF"⟩)) newConfig
        (mockWorld [])).1
        = .error ("response failed with status code: " ++ toString (502 : Int)
            ++ " and body: " ++ "par")
      ∧ (getSsl (mockPlatform (.ok ⟨502, .failed "par" "unexpected EOF"⟩)) newConfig
          (mockWorld [])).1
        ≠ .error ("failed to read response payload: " ++ "unexpected EOF") :=
  (getSsl_status_before_read_error (mockPlatform (.ok ⟨502, .failed "par" "unexpected EOF"⟩))
    newConfig (mockWorld []) ⟨502, .failed "par" "unexpected EOF"⟩ rfl).1
    (by decide) "par" "unexpected EOF" rfl

theorem httpPosts_append (a b : List Event) : httpPosts (a ++ b) = httpPosts a ++ httpPosts b := by
  induction a with
  | nil => rfl
  | cons e t ih => cases e <;> simp [httpPosts, ih]

/-- The calls of `client.Post` of a run that got past the argument check and
the dotenv file: those made before, and the one of the fetcher. -/
theorem run_httpPosts (P : Platform) (args : List String) (w : World)
    (pairs : List (String × String)) (hargs : 2 ≤ args.length)
    (hload : P.readEnvFile (args.getD 1 "") = .ok pairs) :
    httpPosts (run P args w).2.trace
      = httpPosts w.trace
        ++ [sslRequest P (parseConfig (afterLoad (args.getD 1 "") pairs w))] := by
  cases hget : (getSsl P (parseConfig (afterLoad (args.getD 1 "") pairs w))
      (afterLoad (args.getD 1 "") pairs w)).1 with
  | error err =>
    rw [run_fetch_error P args w pairs err hargs hload hget]
    simp [afterPost, afterLoad, httpPosts_append, httpPosts]
  | ok ssl =>
    rw [run_fetched P args w pairs _ ssl hargs hload rfl hget]
    split
    · simp [httpPosts_append, httpPosts]
    · split
      · simp [httpPosts_append, httpPosts]
      · split <;> simp [httpPosts_append, httpPosts]

theorem osGetenv_unset (key : String) (env : List (String × String))
    (h : envHas key env = false) : osGetenv key env = "" := by
  induction env with
  | nil => rfl
  | cons hd tl ih =>
    obtain ⟨k, v⟩ := hd
    by_cases hk : k = key
    · simp [envHas, hk] at h
    · simp [envHas, hk] at h
      simp [osGetenv, hk, ih h]

/-- C9: `parseConfig` is total and copies the four variables as they are, an
unset variable giving the empty string, with no check and no default; so a run
that got past the argument check and the dotenv file sends its request whatever
the fields hold, and with all four variables unset the request goes to the
endpoint followed by `/` alone and carries two empty keys. -/
theorem parseConfig_no_validation (P : Platform) (w : World) :
    parseConfig w
        = { apiKey := osGetenv "API_KEY" w.env
            secretApiKey := osGetenv "SECRET_API_KEY" w.env
            domain := osGetenv "DOMAIN" w.env
            installDir := osGetenv "CERT_INSTALL_DIR" w.env }
      ∧ (∀ key, envHas key w.env = false → osGetenv key w.env = "")
      ∧ (∀ (args : List String) (pairs : List (String × String)),
          2 ≤ args.length → P.readEnvFile (args.getD 1 "") = .ok pairs →
          ∃ rest, (run P args w).2.trace
            = w.trace ++ [Event.loadEnv (args.getD 1 ""),
                Event.httpPost (sslRequest P (parseConfig (afterLoad (args.getD 1 "") pairs w)))]
              ++ rest)
      ∧ (w.env = [] →
          sslRequest P (parseConfig w)
            = { method := "POST"
                url := "https://api.porkbun.com/api/json/v3/ssl/retrieve/"
                contentType := "application/json"
                body := "\x7b\"apikey\":" ++ P.jsonQuote "" ++ ",\"secretapikey\":"
                  ++ P.jsonQuote "" ++ "\x7d" }) := by
  refine ⟨rfl, fun key h => osGetenv_unset key w.env h, ?_, ?_⟩
  · intro args pairs hargs hload
    cases hget : (getSsl P (parseConfig (afterLoad (args.getD 1 "") pairs w))
        (afterLoad (args.getD 1 "") pairs w)).1 with
    | error err =>
      rw [run_fetch_error P args w pairs err hargs hload hget]
      exact ⟨[], by simp [afterPost, afterLoad]⟩
    | ok ssl =>
      rw [run_fetched P args w pairs _ ssl hargs hload rfl hget]
      generalize parseConfig (afterLoad (args.getD 1 "") pairs w) = conf
      split
      · exact ⟨[Event.writeFile (privPath conf) ssl.PrivateKey 0o600], by simp⟩
      · split
        · exact ⟨[Event.writeFile (privPath conf) ssl.PrivateKey 0o600,
            Event.writeFile (pubPath conf) ssl.PublicKey 0o600], by simp⟩
        · split
          · exact ⟨[Event.writeFile (privPath conf) ssl.PrivateKey 0o600,
              Event.writeFile (pubPath conf) ssl.PublicKey 0o600,
              Event.writeFile (certPath conf) ssl.CertChain 0o600], by simp⟩
          · exact ⟨[Event.writeFile (privPath conf) ssl.PrivateKey 0o600,
              Event.writeFile (pubPath conf) ssl.PublicKey 0o600,
              Event.writeFile (certPath conf) ssl.CertChain 0o600], by simp⟩
  · intro h
    simp [sslRequest, parseConfig, newConfig, h, osGetenv, endpoint]


theorem parseConfig_no_validation_witness :
    sslRequest (mockPlatform (.error "dial tcp: connection refused")) (parseConfig (mockWorld []))
      = { method := "POST"
          url := "https://api.porkbun.com/api/json/v3/ssl/retrieve/"
          contentType := "application/json"
          body := "\x7b\"apikey\":" ++ "\"\"" ++ ",\"secretapikey\":" ++ "\"\"" ++ "\x7d" } :=
  (parseConfig_no_validation (mockPlatform (.error "dial tcp: connection refused"))
    (mockWorld [])).2.2.2 rfl

/-! ## The status field: claim C10 -/

theorem godotenvLoad_error (P : Platform) (path : String) (w : World) (e : String)
    (h : P.readEnvFile path = .error e) :
    godotenvLoad P path w
      = (some e, { env := w.env, fs := w.fs, trace := w.trace ++ [Event.loadEnv path] }) := by
  simp [godotenvLoad, h]

theorem run_load_error (P : Platform) (args : List String) (w : World) (e : String)
    (hargs : 2 ≤ args.length) (hload : P.readEnvFile (args.getD 1 "") = .error e) :
    run P args w
      = (some ("failed to read config file: " ++ e),
          { env := w.env, fs := w.fs, trace := w.trace ++ [Event.loadEnv (args.getD 1 "")] }) := by
  have h2 : ¬ args.length < 2 := by omega
  unfold run
  rw [if_neg h2, godotenvLoad_error P _ w e hload]

/-- C10: the `Status` field is never looked at: two responses with a status code
below 300 whose bodies decode to records with the same `CertChain`,
`PrivateKey` and `PublicKey`, whatever their `Status`, give the same result of
`run` and the same final world, filesystem included. -/
theorem run_ignores_status (P : Platform) (args : List String) (w : World)
    (res1 res2 : Response) (d1 d2 : String) (r1 r2 : SslResBody)
    (hs1 : res1.statusCode < 300) (hs2 : res2.statusCode < 300)
    (hb1 : res1.body = .complete d1) (hb2 : res2.body = .complete d2)
    (hj1 : P.jsonUnmarshal d1 = .ok r1) (hj2 : P.jsonUnmarshal d2 = .ok r2)
    (hc : r1.CertChain = r2.CertChain) (hp : r1.PrivateKey = r2.PrivateKey)
    (hk : r1.PublicKey = r2.PublicKey) :
    run { P with roundTrip := fun _ => .ok res1 } args w
      = run { P with roundTrip := fun _ => .ok res2 } args w := by
  by_cases hargs : args.length < 2
  · simp [run, hargs]
  · have hargs2 : 2 ≤ args.length := by omega
    cases hload : P.readEnvFile (args.getD 1 "") with
    | error e =>
      rw [run_load_error { P with roundTrip := fun _ => .ok res1 } args w e hargs2 hload,
        run_load_error { P with roundTrip := fun _ => .ok res2 } args w e hargs2 hload]
    | ok pairs =>
      have hs1b : res1.statusCode ≤ 299 := by omega
      have hs2b : res2.statusCode ≤ 299 := by omega
      have g1 := getSsl_ok { P with roundTrip := fun _ => .ok res1 }
        (parseConfig (afterLoad (args.getD 1 "") pairs w)) (afterLoad (args.getD 1 "") pairs w)
        res1 d1 r1 rfl hs1b hb1 hj1
      have g2 := getSsl_ok { P with roundTrip := fun _ => .ok res2 }
        (parseConfig (afterLoad (args.getD 1 "") pairs w)) (afterLoad (args.getD 1 "") pairs w)
        res2 d2 r2 rfl hs2b hb2 hj2
      rw [run_fetched { P with roundTrip := fun _ => .ok res1 } args w pairs _ r1 hargs2 hload
          rfl (by rw [g1]),
        run_fetched { P with roundTrip := fun _ => .ok res2 } args w pairs _ r2 hargs2 hload
          rfl (by rw [g2]),
        hc, hp, hk]
      rfl

theorem run_ignores_status_witness :
    run { mockPlatform (.error "unused") with
          roundTrip := fun _ => .ok ⟨200, .complete scenarioBody⟩ }
        ["certbun", "conf.env"] (mockWorld [("/tmp/certs", .dir 0o755)])
      = run { mockPlatform (.error "unused") with
          roundTrip := fun _ => .ok ⟨200, .complete errorStatusBody⟩ }
        ["certbun", "conf.env"] (mockWorld [("/tmp/certs", .dir 0o755)]) :=
  run_ignores_status (mockPlatform (.error "unused")) ["certbun", "conf.env"]
    (mockWorld [("/tmp/certs", .dir 0o755)])
    ⟨200, .complete scenarioBody⟩ ⟨200, .complete errorStatusBody⟩
    scenarioBody errorStatusBody
    { Status := "SUCCESS", CertChain := "CHAIN", PrivateKey := "PRIV", PublicKey := "PUB" }
    { Status := "ERROR", CertChain := "CHAIN", PrivateKey := "PRIV", PublicKey := "PUB" }
    (by decide) (by decide) rfl rfl
    (by simp [mockPlatform])
    (by simp [mockPlatform, scenarioBody, errorStatusBody])
    rfl rfl rfl

/-! ## The writer: claims C5 and C1 -/

theorem plainName_priv : PlainName ("private.key.pem" : String).data := by
  unfold PlainName
  decide

theorem plainName_pub : PlainName ("public.key.pem" : String).data := by
  unfold PlainName
  decide

theorem plainName_cert : PlainName ("cert.pem" : String).data := by
  unfold PlainName
  decide

theorem privPath_ne_pubPath (conf : Config) : privPath conf ≠ pubPath conf := fun h =>
  absurd (filepathJoin_injective _ _ _ plainName_priv plainName_pub h) (by decide)

theorem privPath_ne_certPath (conf : Config) : privPath conf ≠ certPath conf := fun h =>
  absurd (filepathJoin_injective _ _ _ plainName_priv plainName_cert h) (by decide)

theorem pubPath_ne_certPath (conf : Config) : pubPath conf ≠ certPath conf := fun h =>
  absurd (filepathJoin_injective _ _ _ plainName_pub plainName_cert h) (by decide)

theorem fetch_ok (P : Platform) (conf : Config) (w : World) (res : Response) (data : String)
    (ssl : SslResBody) (hres : P.roundTrip (sslRequest P conf) = .ok res)
    (hs : res.statusCode < 300) (hbody : res.body = .complete data)
    (hjson : P.jsonUnmarshal data = .ok ssl) : (getSsl P conf w).1 = .ok ssl := by
  have hs2 : res.statusCode ≤ 299 := by omega
  rw [getSsl_ok P conf w res data ssl hres hs2 hbody hjson]

/-- C5: after a successful fetch `run` attempts the writes in the order private
key, public key, certificate and stops at the first one that fails: the error
names the file that failed, the filesystem is the one the earlier writes left
(each file written before holds its new content), and the trace shows no
attempt after the failing one. -/
theorem run_stops_at_first_failed_write (P : Platform) (args : List String) (w : World)
    (pairs : List (String × String)) (conf : Config) (res : Response) (data : String)
    (ssl : SslResBody)
    (hargs : 2 ≤ args.length)
    (hload : P.readEnvFile (args.getD 1 "") = .ok pairs)
    (hconf : conf = parseConfig (afterLoad (args.getD 1 "") pairs w))
    (hres : P.roundTrip (sslRequest P conf) = .ok res)
    (hs : res.statusCode < 300)
    (hbody : res.body = .complete data)
    (hjson : P.jsonUnmarshal data = .ok ssl) :
    (∀ e, w.fs.writeFile (privPath conf) ssl.PrivateKey 0o600 = .error e →
        (run P args w).1 = some ("failed to write private key: " ++ e)
        ∧ (run P args w).2.fs = w.fs
        ∧ (run P args w).2.trace
          = w.trace ++ [Event.loadEnv (args.getD 1 ""), Event.httpPost (sslRequest P conf),
              Event.writeFile (privPath conf) ssl.PrivateKey 0o600])
    ∧ (∀ fs1 e, w.fs.writeFile (privPath conf) ssl.PrivateKey 0o600 = .ok fs1 →
        fs1.writeFile (pubPath conf) ssl.PublicKey 0o600 = .error e →
        (run P args w).1 = some ("failed to write public key: " ++ e)
        ∧ (run P args w).2.fs = fs1
        ∧ (∃ m, (run P args w).2.fs.lookup (privPath conf) = some (.file ssl.PrivateKey m))
        ∧ (run P args w).2.trace
          = w.trace ++ [Event.loadEnv (args.getD 1 ""), Event.httpPost (sslRequest P conf),
              Event.writeFile (privPath conf) ssl.PrivateKey 0o600,
              Event.writeFile (pubPath conf) ssl.PublicKey 0o600])
    ∧ (∀ fs1 fs2 e, w.fs.writeFile (privPath conf) ssl.PrivateKey 0o600 = .ok fs1 →
        fs1.writeFile (pubPath conf) ssl.PublicKey 0o600 = .ok fs2 →
        fs2.writeFile (certPath conf) ssl.CertChain 0o600 = .error e →
        (run P args w).1 = some ("failed to write certificate: " ++ e)
        ∧ (run P args w).2.fs = fs2
        ∧ (∃ m, (run P args w).2.fs.lookup (privPath conf) = some (.file ssl.PrivateKey m))
        ∧ (∃ m, (run P args w).2.fs.lookup (pubPath conf) = some (.file ssl.PublicKey m))
        ∧ (run P args w).2.trace
          = w.trace ++ [Event.loadEnv (args.getD 1 ""), Event.httpPost (sslRequest P conf),
              Event.writeFile (privPath conf) ssl.PrivateKey 0o600,
              Event.writeFile (pubPath conf) ssl.PublicKey 0o600,
              Event.writeFile (certPath conf) ssl.CertChain 0o600]) := by
  have hget := fetch_ok P conf (afterLoad (args.getD 1 "") pairs w) res data ssl hres hs
    hbody hjson
  have hrun := run_fetched P args w pairs conf ssl hargs hload hconf hget
  refine ⟨?_, ?_, ?_⟩
  · intro e h1
    rw [hrun, h1]
    exact ⟨rfl, rfl, rfl⟩
  · intro fs1 e h1 h2
    rw [hrun, h1]
    dsimp only
    rw [h2]
    exact ⟨rfl, rfl, ⟨_, (writeFile_ok_spec _ _ _ _ _ h1).1⟩, rfl⟩
  · intro fs1 fs2 e h1 h2 h3
    rw [hrun, h1]
    dsimp only
    rw [h2]
    dsimp only
    rw [h3]
    have s1 := writeFile_ok_spec _ _ _ _ _ h1
    have s2 := writeFile_ok_spec _ _ _ _ _ h2
    refine ⟨rfl, rfl, ⟨permAfterWrite w.fs (privPath conf) 0o600, ?_⟩, ⟨_, s2.1⟩, rfl⟩
    show fs2.lookup (privPath conf) = _
    rw [s2.2.1 _ (privPath_ne_pubPath conf)]
    exact s1.1

theorem run_stops_at_first_failed_write_witness :
    (run (mockPlatform (.ok ⟨200, .complete scenarioBody⟩)) ["certbun", "conf.env"]
        (mockWorld [("/tmp/certs", .dir 0o755), ("/tmp/certs/public.key.pem", .dir 0o755)])).1
        = some ("failed to write public key: "
            ++ "open /tmp/certs/public.key.pem: is a directory")
      ∧ (∃ m, (run (mockPlatform (.ok ⟨200, .complete scenarioBody⟩)) ["certbun", "conf.env"]
          (mockWorld [("/tmp/certs", .dir 0o755),
            ("/tmp/certs/public.key.pem", .dir 0o755)])).2.fs.lookup
            "/tmp/certs/private.key.pem" = some (.file "PRIV" m)) :=
  have h := (run_stops_at_first_failed_write (mockPlatform (.ok ⟨200, .complete scenarioBody⟩))
    ["certbun", "conf.env"]
    (mockWorld [("/tmp/certs", .dir 0o755), ("/tmp/certs/public.key.pem", .dir 0o755)])
    [("API_KEY", "abc"), ("SECRET_API_KEY", "def"), ("DOMAIN", "example.com"),
      ("CERT_INSTALL_DIR", "/tmp/certs")]
    { apiKey := "abc", secretApiKey := "def", domain := "example.com",
      installDir := "/tmp/certs" }
    ⟨200, .complete scenarioBody⟩ scenarioBody
    { Status := "SUCCESS", CertChain := "CHAIN", PrivateKey := "PRIV", PublicKey := "PUB" }
    (by decide) rfl (by decide) rfl (by decide) rfl (by simp [mockPlatform])).2.1
    { entries := [("/tmp/certs", .dir 0o755), ("/tmp/certs/public.key.pem", .dir 0o755),
        ("/tmp/certs/private.key.pem", .file "PRIV" 0o600)], umask := 0o022 }
    "open /tmp/certs/public.key.pem: is a directory" rfl rfl
  ⟨h.1, h.2.2.1⟩

theorem permAfterWrite_congr (fs fs1 : FS) (path : String) (perm : Nat)
    (hl : fs1.lookup path = fs.lookup path) (hu : fs1.umask = fs.umask) :
    permAfterWrite fs1 path perm = permAfterWrite fs path perm := by
  simp [permAfterWrite, hl, hu]

theorem writable_congr (fs fs1 : FS) (path : String)
    (hl : fs1.lookup path = fs.lookup path) (h : Writable fs path) : Writable fs1 path := by
  unfold Writable at h ⊢
  rw [hl]
  exact h

theorem dir_ne_writable (fs : FS) (d path : String) (dperm : Nat)
    (hdir : fs.lookup d = some (.dir dperm)) (h : Writable fs path) : d ≠ path := by
  intro e
  subst e
  simp [Writable, hdir] at h

theorem applyUmask_owner (umask : Nat) (h : 0o600 &&& umask = 0) :
    applyUmask 0o600 umask = 0o600 := by
  simp [applyUmask, h]

/-- C1, as amended: when the install directory exists and its owner may search
and write it, each of the three target paths is free or holds a regular file
its owner may write, and the response has a status code below 300 and a body
that decodes to a record, `run` returns no error and the three files hold
exactly the private key, the public key and the certificate chain.  A file
that was there keeps its permission bits; a file that was not gets 0600 less
the bits of the file mode creation mask, which is 0600 when the mask clears
none of the owner's read and write bits. -/
theorem run_installs_bundle (P : Platform) (args : List String) (w : World)
    (pairs : List (String × String)) (conf : Config) (res : Response) (data : String)
    (ssl : SslResBody) (dperm : Nat)
    (hargs : 2 ≤ args.length)
    (hload : P.readEnvFile (args.getD 1 "") = .ok pairs)
    (hconf : conf = parseConfig (afterLoad (args.getD 1 "") pairs w))
    (hres : P.roundTrip (sslRequest P conf) = .ok res)
    (hs : res.statusCode < 300)
    (hbody : res.body = .complete data)
    (hjson : P.jsonUnmarshal data = .ok ssl)
    (hdir : w.fs.lookup (filepathClean conf.installDir) = some (.dir dperm))
    (hsearch : ownerSearch dperm = true) (hwrite : ownerWrite dperm = true)
    (hpriv : Writable w.fs (privPath conf))
    (hpub : Writable w.fs (pubPath conf))
    (hcert : Writable w.fs (certPath conf)) :
    (run P args w).1 = none
      ∧ (run P args w).2.fs.lookup (privPath conf)
        = some (.file ssl.PrivateKey (permAfterWrite w.fs (privPath conf) 0o600))
      ∧ (run P args w).2.fs.lookup (pubPath conf)
        = some (.file ssl.PublicKey (permAfterWrite w.fs (pubPath conf) 0o600))
      ∧ (run P args w).2.fs.lookup (certPath conf)
        = some (.file ssl.CertChain (permAfterWrite w.fs (certPath conf) 0o600))
      ∧ (∀ path c m, w.fs.lookup path = some (.file c m) →
          permAfterWrite w.fs path 0o600 = m)
      ∧ (∀ path, w.fs.lookup path = none →
          permAfterWrite w.fs path 0o600 = applyUmask 0o600 w.fs.umask)
      ∧ (0o600 &&& w.fs.umask = 0 → applyUmask 0o600 w.fs.umask = 0o600) := by
  have hget := fetch_ok P conf (afterLoad (args.getD 1 "") pairs w) res data ssl hres hs
    hbody hjson
  have hrun := run_fetched P args w pairs conf ssl hargs hload hconf hget
  have pd1 : parentDir (privPath conf) = filepathClean conf.installDir :=
    parentDir_filepathJoin _ _ plainName_priv
  have pd2 : parentDir (pubPath conf) = filepathClean conf.installDir :=
    parentDir_filepathJoin _ _ plainName_pub
  have pd3 : parentDir (certPath conf) = filepathClean conf.installDir :=
    parentDir_filepathJoin _ _ plainName_cert
  have n12 := privPath_ne_pubPath conf
  have n13 := privPath_ne_certPath conf
  have n23 := pubPath_ne_certPath conf
  -- the first write
  obtain ⟨fs1, h1⟩ := writeFile_succeeds w.fs (privPath conf) ssl.PrivateKey 0o600 dperm
    (by rw [pd1]; exact hdir) hsearch hwrite hpriv
  have s1 := writeFile_ok_spec _ _ _ _ _ h1
  have d1 : fs1.lookup (filepathClean conf.installDir) = some (.dir dperm) := by
    rw [s1.2.1 _ (dir_ne_writable w.fs _ _ dperm hdir hpriv)]
    exact hdir
  have l12 : fs1.lookup (pubPath conf) = w.fs.lookup (pubPath conf) :=
    s1.2.1 _ (fun e => n12 e.symm)
  have l13 : fs1.lookup (certPath conf) = w.fs.lookup (certPath conf) :=
    s1.2.1 _ (fun e => n13 e.symm)
  have hpub1 := writable_congr w.fs fs1 _ l12 hpub
  have hcert1 := writable_congr w.fs fs1 _ l13 hcert
  -- the second write
  obtain ⟨fs2, h2⟩ := writeFile_succeeds fs1 (pubPath conf) ssl.PublicKey 0o600 dperm
    (by rw [pd2]; exact d1) hsearch hwrite hpub1
  have s2 := writeFile_ok_spec _ _ _ _ _ h2
  have d2 : fs2.lookup (filepathClean conf.installDir) = some (.dir dperm) := by
    rw [s2.2.1 _ (dir_ne_writable fs1 _ _ dperm d1 hpub1)]
    exact d1
  have l23 : fs2.lookup (certPath conf) = fs1.lookup (certPath conf) :=
    s2.2.1 _ (fun e => n23 e.symm)
  have hcert2 := writable_congr fs1 fs2 _ l23 hcert1
  -- the third write
  obtain ⟨fs3, h3⟩ := writeFile_succeeds fs2 (certPath conf) ssl.CertChain 0o600 dperm
    (by rw [pd3]; exact d2) hsearch hwrite hcert2
  have s3 := writeFile_ok_spec _ _ _ _ _ h3
  rw [hrun, h1]
  dsimp only
  rw [h2]
  dsimp only
  rw [h3]
  refine ⟨rfl, ?_, ?_, ?_, ?_, ?_, applyUmask_owner _⟩
  · show fs3.lookup (privPath conf) = _
    rw [s3.2.1 _ n13, s2.2.1 _ n12]
    exact s1.1
  · show fs3.lookup (pubPath conf) = _
    rw [s3.2.1 _ n23, s2.1, permAfterWrite_congr w.fs fs1 _ _ l12 s1.2.2]
  · show fs3.lookup (certPath conf) = _
    rw [s3.1, permAfterWrite_congr fs1 fs2 _ _ l23 s2.2.2,
      permAfterWrite_congr w.fs fs1 _ _ l13 s1.2.2]
  · intro path c m h
    simp [permAfterWrite, h]
  · intro path h
    simp [permAfterWrite, h]

theorem run_installs_bundle_witness :
    (run (mockPlatform (.ok ⟨200, .complete scenarioBody⟩)) ["certbun", "conf.env"]
        (mockWorld [("/tmp/certs", .dir 0o755)])).1 = none
      ∧ (run (mockPlatform (.ok ⟨200, .complete scenarioBody⟩)) ["certbun", "conf.env"]
          (mockWorld [("/tmp/certs", .dir 0o755)])).2.fs.lookup "/tmp/certs/private.key.pem"
        = some (.file "PRIV" 0o600)
      ∧ (run (mockPlatform (.ok ⟨200, .complete scenarioBody⟩)) ["certbun", "conf.env"]
          (mockWorld [("/tmp/certs", .dir 0o755)])).2.fs.lookup "/tmp/certs/public.key.pem"
        = some (.file "PUB" 0o600)
      ∧ (run (mockPlatform (.ok ⟨200, .complete scenarioBody⟩)) ["certbun", "conf.env"]
          (mockWorld [("/tmp/certs", .dir 0o755)])).2.fs.lookup "/tmp/certs/cert.pem"
        = some (.file "CHAIN" 0o600) :=
  have h := run_installs_bundle (mockPlatform (.ok ⟨200, .complete scenarioBody⟩))
    ["certbun", "conf.env"] (mockWorld [("/tmp/certs", .dir 0o755)])
    [("API_KEY", "abc"), ("SECRET_API_KEY", "def"), ("DOMAIN", "example.com"),
      ("CERT_INSTALL_DIR", "/tmp/certs")]
    { apiKey := "abc", secretApiKey := "def", domain := "example.com",
      installDir := "/tmp/certs" }
    ⟨200, .complete scenarioBody⟩ scenarioBody
    { Status := "SUCCESS", CertChain := "CHAIN", PrivateKey := "PRIV", PublicKey := "PUB" }
    0o755
    (by decide) rfl (by decide) rfl (by decide) rfl (by simp [mockPlatform])
    (by decide) (by decide) (by decide) (by decide) (by decide) (by decide)
  ⟨h.1, h.2.1, h.2.2.1, h.2.2.2.1⟩

/-- C1 as stated fails on existing targets and under a mask that clears owner
bits.  In each of three worlds the install directory `/tmp/certs` exists with
mode 0755 and the response is the 200 response of the end-to-end scenario.
With `private.key.pem` there with mode 0644 the run succeeds and the file
keeps mode 0644; with `private.key.pem` there with mode 0400 the run returns a
write error; with no target there and the mask 0277 the private key is
created with mode 0400. -/
theorem run_installs_bundle_counterexample :
    ((run (mockPlatform (.ok ⟨200, .complete scenarioBody⟩)) ["certbun", "conf.env"]
        (mockWorld [("/tmp/certs", .dir 0o755),
          ("/tmp/certs/private.key.pem", .file "old" 0o644)])).1 = none
      ∧ (run (mockPlatform (.ok ⟨200, .complete scenarioBody⟩)) ["certbun", "conf.env"]
          (mockWorld [("/tmp/certs", .dir 0o755),
            ("/tmp/certs/private.key.pem", .file "old" 0o644)])).2.fs.lookup
            "/tmp/certs/private.key.pem"
        = some (.file "PRIV" 0o644))
    ∧ (run (mockPlatform (.ok ⟨200, .complete scenarioBody⟩)) ["certbun", "conf.env"]
        (mockWorld [("/tmp/certs", .dir 0o755),
          ("/tmp/certs/private.key.pem", .file "old" 0o400)])).1
        = some "failed to write private key: open /tmp/certs/private.key.pem: permission denied"
    ∧ (run (mockPlatform (.ok ⟨200, .complete scenarioBody⟩)) ["certbun", "conf.env"]
        { env := [], fs := { entries := [("/tmp/certs", .dir 0o755)], umask := 0o277 },
          trace := [] }).2.fs.lookup "/tmp/certs/private.key.pem"
        = some (.file "PRIV" 0o400) := by
  decide

/-! ## Calls and requests on the wire: claim C7 -/

theorem wireOfCalls_append (N : Network) (a b : List Request) :
    wireOfCalls N (a ++ b) = wireOfCalls N a ++ wireOfCalls N b := by
  induction a with
  | nil => rfl
  | cons r t ih => simp [wireOfCalls, ih]

theorem clientSend_length (N : Network) (ireq : Request) :
    ∀ (budget : Nat) (req : Request), (clientSend N ireq budget req).1.length ≤ budget := by
  intro budget
  induction budget with
  | zero => intro req; simp [clientSend]
  | succ b ih =>
    intro req
    unfold clientSend
    split
    · simp
    · split
      · simp
      · simp
      · rename_i nreq _
        have := ih nreq
        simp only [List.length_cons]
        omega

theorem clientSend_first (N : Network) (ireq req : Request) (b : Nat) :
    ∃ rest, (clientSend N ireq (b + 1) req).1 = req :: rest ∧ rest.length ≤ b := by
  unfold clientSend
  split
  · exact ⟨[], rfl, by simp⟩
  · split
    · exact ⟨[], rfl, by simp⟩
    · exact ⟨[], rfl, by simp⟩
    · rename_i nreq _
      exact ⟨_, rfl, clientSend_length N ireq b nreq⟩

theorem followUp_stop (ireq req : Request) (hop : Hop)
    (h : hop.location = none
      ∨ (hop.response.statusCode ≠ 301 ∧ hop.response.statusCode ≠ 302
        ∧ hop.response.statusCode ≠ 303 ∧ hop.response.statusCode ≠ 307
        ∧ hop.response.statusCode ≠ 308)) :
    followUp ireq req hop = .stop := by
  unfold followUp
  rcases h with h | ⟨h1, h2, h3, h4, h5⟩
  · rw [h]
    split
    · rfl
    · split <;> rfl
  · simp [h1, h2, h3, h4, h5]

/-- C7, as amended: `getSsl` makes exactly one call of `client.Post`, whatever
its outcome: a POST to the endpoint followed by `/` and the domain, with content
type `application/json` and an object body whose members `apikey` and
`secretapikey` are the configured keys; the program never calls again, and an
error of the client comes back wrapped.  A run that reaches the fetcher adds
exactly this one call, and on the wire the requests of the client for it: none
when `http.NewRequest` rejects the URL; exactly the one request when the URL is
accepted and the attempt fails at the transport level, or is answered by a
response that has no `Location` or a status code other than 301, 302, 303, 307
and 308; otherwise one more for each redirect the client follows, the first
being that request and the count at most ten. -/
theorem getSsl_single_call (P : Platform) (N : Network) (conf : Config) (w : World)
    (hserve : Serves N P) :
    (getSsl P conf w).2.trace
        = w.trace ++ [Event.httpPost
            { method := "POST"
              url := "https://api.porkbun.com/api/json/v3/ssl/retrieve" ++ "/" ++ conf.domain
              contentType := "application/json"
              body := "\x7b\"apikey\":" ++ P.jsonQuote conf.apiKey ++ ",\"secretapikey\":"
                ++ P.jsonQuote conf.secretApiKey ++ "\x7d" }]
      ∧ (∀ e, P.roundTrip (sslRequest P conf) = .error e →
          (getSsl P conf w).1 = .error ("failed to request ssl certificates: " ++ e))
      ∧ (∀ (args : List String) (w0 : World) (pairs : List (String × String)),
          2 ≤ args.length → P.readEnvFile (args.getD 1 "") = .ok pairs →
          conf = parseConfig (afterLoad (args.getD 1 "") pairs w0) →
          httpPosts (run P args w0).2.trace = httpPosts w0.trace ++ [sslRequest P conf]
          ∧ wireRequests N (run P args w0).2.trace
            = wireRequests N w0.trace ++ (clientDo N (sslRequest P conf)).1)
      ∧ (∀ e, N.newRequestError (sslRequest P conf).url = some e →
          (clientDo N (sslRequest P conf)).1 = []
          ∧ (getSsl P conf w).1 = .error ("failed to request ssl certificates: " ++ e))
      ∧ (∀ e, N.newRequestError (sslRequest P conf).url = none →
          N.answer (sslRequest P conf) = .error e →
          (clientDo N (sslRequest P conf)).1 = [sslRequest P conf]
          ∧ (getSsl P conf w).1 = .error ("failed to request ssl certificates: " ++ e))
      ∧ (∀ hop, N.newRequestError (sslRequest P conf).url = none →
          N.answer (sslRequest P conf) = .ok hop →
          (hop.location = none
            ∨ (hop.response.statusCode ≠ 301 ∧ hop.response.statusCode ≠ 302
              ∧ hop.response.statusCode ≠ 303 ∧ hop.response.statusCode ≠ 307
              ∧ hop.response.statusCode ≠ 308)) →
          (clientDo N (sslRequest P conf)).1 = [sslRequest P conf]
          ∧ P.roundTrip (sslRequest P conf) = .ok hop.response)
      ∧ (N.newRequestError (sslRequest P conf).url = none →
          ∃ rest, (clientDo N (sslRequest P conf)).1 = sslRequest P conf :: rest
            ∧ rest.length < 10) := by
  refine ⟨?_, ?_, ?_, ?_, ?_, ?_, ?_⟩
  · rw [getSsl_world]
    rfl
  · intro e h
    rw [getSsl_transport_error P conf w e h]
  · intro args w0 pairs hargs hload hconf
    subst hconf
    have hp := run_httpPosts P args w0 pairs hargs hload
    refine ⟨hp, ?_⟩
    unfold wireRequests
    rw [hp, wireOfCalls_append]
    simp [wireOfCalls]
  · intro e h
    have hd : clientDo N (sslRequest P conf) = ([], .error e) := by
      simp [clientDo, h]
    have hr : P.roundTrip (sslRequest P conf) = .error e := by
      rw [hserve, hd]
    exact ⟨by rw [hd], by rw [getSsl_transport_error P conf w e hr]⟩
  · intro e h ha
    have hd : clientDo N (sslRequest P conf) = ([sslRequest P conf], .error e) := by
      simp [clientDo, h, clientSend, ha]
    have hr : P.roundTrip (sslRequest P conf) = .error e := by
      rw [hserve, hd]
    exact ⟨by rw [hd], by rw [getSsl_transport_error P conf w e hr]⟩
  · intro hop h ha hstop
    have hf := followUp_stop (sslRequest P conf) (sslRequest P conf) hop hstop
    have hd : clientDo N (sslRequest P conf) = ([sslRequest P conf], .ok hop.response) := by
      simp [clientDo, h, clientSend, ha, hf]
    exact ⟨by rw [hd], by rw [hserve, hd]⟩
  · intro h
    obtain ⟨rest, h1, h2⟩ := clientSend_first N (sslRequest P conf) (sslRequest P conf) 9
    refine ⟨rest, ?_, by omega⟩
    simp only [clientDo, h]
    exact h1

theorem getSsl_single_call_witness :
    (clientDo (plainNetwork (.error "dial tcp: connection refused"))
        (sslRequest (mockPlatform (.error "unused")) newConfig)).1
        = [sslRequest (mockPlatform (.error "unused")) newConfig]
      ∧ (getSsl (servedPlatform (plainNetwork (.error "dial tcp: connection refused"))
          (mockPlatform (.error "unused"))) newConfig (mockWorld [])).1
        = .error ("failed to request ssl certificates: " ++ "dial tcp: connection refused") :=
  (getSsl_single_call
    (servedPlatform (plainNetwork (.error "dial tcp: connection refused"))
      (mockPlatform (.error "unused")))
    (plainNetwork (.error "dial tcp: connection refused")) newConfig (mockWorld [])
    (fun _ => rfl)).2.2.2.2.1 "dial tcp: connection refused" rfl rfl

/-- C7 as stated fails at both ends of the count.  With the domain `%zz` the
client rejects the URL, `run` returns the wrapped error and no request reaches
the wire; with a server that answers the first request by a 307 the client
posts the two keys a second time to the new location, and `run` succeeds after
two requests. -/
theorem getSsl_single_call_counterexample :
    (wireRequests strictNetwork
        (run badDomainPlatform ["certbun", "conf.env"]
          (mockWorld [("/tmp/certs", .dir 0o755)])).2.trace = []
      ∧ (run badDomainPlatform ["certbun", "conf.env"]
          (mockWorld [("/tmp/certs", .dir 0o755)])).1
        = some ("failed to request ssl certificates: "
            ++ "parse \"https://api.porkbun.com/api/json/v3/ssl/retrieve/%zz\": "
            ++ "invalid URL escape \"%zz\""))
    ∧ (wireRequests movedNetwork
        (run movedPlatform ["certbun", "conf.env"]
          (mockWorld [("/tmp/certs", .dir 0o755)])).2.trace
        = [{ method := "POST"
             url := "https://api.porkbun.com/api/json/v3/ssl/retrieve/example.com"
             contentType := "application/json"
             body := "\x7b\"apikey\":\"abc\",\"secretapikey\":\"def\"\x7d" },
           { method := "POST"
             url := "https://api.porkbun.com/moved"
             contentType := "application/json"
             body := "\x7b\"apikey\":\"abc\",\"secretapikey\":\"def\"\x7d" }]
      ∧ (run movedPlatform ["certbun", "conf.env"]
          (mockWorld [("/tmp/certs", .dir 0o755)])).1 = none) := by
  decide

end Certbun
